import Mathlib

/-
Shallow embedding of the mountain-road safety simulation engine
(src/simulation_engine.py) and of the report lookup logic
(src/risk_calculator.py).

Modelling conventions:
* Python floats are modelled by exact rationals (`ℚ`); all decimal
  constants of the source (0.11, 9.81, 0.35, ...) are exact rationals here.
* The single transcendental operation of the source,
  `math.sin(math.atan(slope/100))` in the brake heating branch, is modelled
  over the reals (`Real.sin`, `Real.arctan`); consequently the brake
  temperature state and everything derived from it lives in `ℝ`.
* `pandas` rows become structures; `row.get(col, default)` on an optional
  column becomes `Option.getD`; the categorical `dict.get(key, default)`
  lookups become total functions on `String` with the source's default in
  the final `else` branch.
* Python's `round(x, 1)` is modelled as `round (10*x) / 10`; Python rounds
  ties to even while Mathlib's `round` rounds ties up, but no statement in
  this development touches a tie.
-/

namespace MountainRoad

/-- Vehicle parameters row (`vehicle_params` series read in
`VehicleSimulator.__init__`). `Brake_Type` is read by the dashboard only and
`Brake_Capacity`/`Length_m` are stored but never used by the engine. -/
structure Vehicle where
  vehicleType : String
  weight : ℚ
  length : ℚ
  width : ℚ
  brakeCapacity : ℚ
  maxSafeSpeed : ℚ
  brakeHeatFactor : ℚ
  centerOfGravity : ℚ
deriving Repr, DecidableEq

/-- Environment conditions row; only the four fields used by the engine are
modelled (`Condition`, `Rainfall_mm`, `Soil_Type`, `Landslide_Risk_Base`,
`Road_Friction`). -/
structure Environment where
  condition : String
  rainfall : ℚ
  soilType : String
  landslideRiskBase : ℚ
  roadFriction : ℚ
deriving Repr, DecidableEq

/-- Driver behavior dictionary passed to `simulate_vehicle_journey`. -/
structure DriverBehavior where
  is_night : Bool
  is_overspeeding : Bool
  poor_visibility : Bool
  driver_experience : String
deriving Repr, DecidableEq

/-- One row of the merged `road_data ⨝ road_characteristics` table.
`slopeMagnitude` is the value of the `Slope_Magnitude(%)` column: per the
spec's data model (§3) the per-segment slope is signed (the dashboard
displays this very column with a downhill arrow when it is negative), and
`slopeDirection` is the `Slop(%)` companion column, downhill iff its string
form contains a minus sign.  The five optional characteristics columns are
`Option`s, mirroring `row.get(col, default)` in the source; the two Yes/No
columns are modelled as booleans, absorbing the source's
`str(x).strip().lower() == 'yes'` parsing (so the source defaults `'No'`
and `'Yes'` become `false` and `true`). -/
structure Segment where
  segmentId : ℤ
  distanceKm : ℚ
  elevationM : ℚ
  slopeMagnitude : ℚ
  slopeDirection : String
  roadWidth : Option ℚ
  curveSharpness : Option String
  cliffPresent : Option Bool
  guardrailPresent : Option Bool
  visibility : Option ℚ
  riskCategory : String
deriving Repr, DecidableEq

/-- Python's `'-' in str(slope_direction)`: for a one-character needle,
substring containment is character membership. -/
def has_minus (s : String) : Bool := s.data.contains '-'

/-- Embeds `curve_factors.get(curve_sharpness, 0.5)`. -/
def curve_factor (c : String) : ℚ :=
  if c = "Gentle" then 0.1
  else if c = "Moderate" then 0.3
  else if c = "Sharp" then 0.6
  else if c = "Very_Sharp" then 0.9
  else 0.5

/-- Output dictionary of `calculate_stability_risk`. -/
structure StabilityResult where
  stability_risk : ℚ
  lateral_risk : ℚ
  longitudinal_risk : ℚ
  clearance_risk : ℚ
  tipping_risk : ℚ
  speed_ratio : ℚ
  safe_speed_recommendation : ℚ
deriving Repr, DecidableEq

/-- Embeds `VehicleSimulator.calculate_stability_risk`.  The source also computes
`slope_angle = atan(slope/100)` but never uses it, so it is omitted. -/
def calculate_stability_risk (v : Vehicle) (slope road_width : ℚ)
    (curve_sharpness : String) (speed : ℚ) (road_friction : ℚ) :
    StabilityResult :=
  let cf := curve_factor curve_sharpness
  let speed_ratio := speed / v.maxSafeSpeed
  let lateral_risk := cf * speed_ratio * 1.0
  let slope_risk := min (|slope| / 35) 1.0
  let weight_factor := v.weight / 12000
  let longitudinal_risk := slope_risk * weight_factor * 1.2
  let clearance := road_width - v.width
  let clearance_risk := max 0 (1 - clearance / 3.0)
  let tipping_risk := v.centerOfGravity / 2.5 * cf * speed_ratio
  let friction_risk := (1 - road_friction) * 0.5
  let stability_risk := min
    (lateral_risk * 0.3 + longitudinal_risk * 0.25 + clearance_risk * 0.2 +
      tipping_risk * 0.15 + friction_risk * 0.1) 1.0
  { stability_risk := stability_risk
    lateral_risk := lateral_risk
    longitudinal_risk := longitudinal_risk
    clearance_risk := clearance_risk
    tipping_risk := tipping_risk
    speed_ratio := speed_ratio
    safe_speed_recommendation := v.maxSafeSpeed * (1 - cf) }

/-- The mutable pair `(self.brake_temperature, self.cumulative_brake_usage)`
of `VehicleSimulator`; the temperature lives in `ℝ` because the heating
increment involves `sin (arctan _)`. -/
structure BrakeState where
  brake_temperature : ℝ
  cumulative_brake_usage : ℚ

/-- Fields of the dictionary returned by `calculate_brake_failure_risk` that
are consumed downstream. -/
structure BrakeResult where
  brake_temperature : ℝ
  brake_failure_risk : ℝ
  status : String

/-- Embeds `round(x, 1)` of the source (see the header note about ties). -/
noncomputable def round1 (x : ℝ) : ℝ := (round (10 * x) : ℤ) / 10

/-- Embeds `math.sin(math.atan(slope_magnitude / 100))`. -/
noncomputable def sin_atan_pct (slope_magnitude : ℚ) : ℝ :=
  Real.sin (Real.arctan ((slope_magnitude : ℝ) / 100))

open Classical

/-- Embeds `VehicleSimulator.calculate_brake_failure_risk`, as a state transformer:
returns the updated `(brake_temperature, cumulative_brake_usage)` state and
the result dictionary. -/
noncomputable def calculate_brake_failure_risk (v : Vehicle)
    (slope segment_distance speed : ℚ) (is_downhill : Bool)
    (s : BrakeState) : BrakeState × BrakeResult :=
  if ¬ is_downhill ∨ 0 ≤ slope then
    -- uphill or flat: brakes cool down (5 °C per segment, floor 20 °C)
    let t := max 20 (s.brake_temperature - 5)
    let u := max 0 (s.cumulative_brake_usage - 0.1)
    (⟨t, u⟩, ⟨t, 0.0, "Cooling"⟩)
  else
    -- downhill: brakes heat up
    let slope_magnitude := |slope|
    let distance_m := segment_distance * 1000
    let height_loss : ℝ := (distance_m : ℝ) * sin_atan_pct slope_magnitude
    let energy_dissipated : ℝ := (v.weight : ℝ) * 9.81 * height_loss
    let temp_increase0 : ℝ :=
      energy_dissipated * (v.brakeHeatFactor : ℝ) / (50 * 500 * 1000)
    let speed_factor : ℚ := speed / v.maxSafeSpeed * 2.0
    let temp_increase := temp_increase0 * (speed_factor : ℝ)
    let t := max 20 (s.brake_temperature + temp_increase - 2)
    let brake_usage : ℚ := slope_magnitude / 30 * (segment_distance / 0.11)
    let u := s.cumulative_brake_usage + brake_usage
    let temp_risk : ℝ := if 200 < t then (t - 200) / 200 else 0
    let usage_risk : ℚ := min (u / 10) 1.0
    let brake_failure_risk : ℝ :=
      min (temp_risk * 0.7 + (usage_risk : ℝ) * 0.3) 1.0
    let status :=
      if 350 < t then "CRITICAL - Brake Failure Imminent"
      else if 250 < t then "WARNING - Brakes Overheating"
      else if 150 < t then "Caution - Elevated Temperature"
      else "Normal"
    (⟨t, u⟩, ⟨round1 t, brake_failure_risk, status⟩)

/-- Fields of the dictionary returned by `calculate_cliff_fall_risk` that are
consumed downstream (the free-text `factors` list is display-only and
omitted). -/
structure CliffResult where
  cliff_fall_risk : ℚ
  severity : String
deriving Repr, DecidableEq

/-- Embeds `VehicleSimulator.calculate_cliff_fall_risk`. -/
def calculate_cliff_fall_risk (cliff_present guardrail : Bool)
    (road_width visibility speed stability_risk : ℚ) : CliffResult :=
  if ¬ cliff_present then ⟨0.0, "None"⟩
  else
    let base_risk : ℚ := 0.6
    let protection_factor : ℚ := if guardrail then 0.25 else 1.2
    let width_risk := max 0 (1 - road_width / 7)
    let visibility_risk := max 0 (1 - visibility / 80)
    let speed_risk := min (speed / 60) 1.3
    let stability_contribution := stability_risk * 0.8
    let r := min
      (base_risk * protection_factor *
        (width_risk * 0.30 + visibility_risk * 0.25 + speed_risk * 0.25 +
          stability_contribution * 0.20)) 1.0
    let severity :=
      if 0.7 < r then "EXTREME - Immediate danger"
      else if 0.5 < r then "HIGH - Very dangerous"
      else if 0.3 < r then "MEDIUM - Caution required"
      else "LOW - Manageable risk"
    ⟨r, severity⟩

/-- Embeds `soil_factors.get(soil_type, 0.6)`. -/
def soil_factor_of (s : String) : ℚ :=
  if s = "Rocky" then 0.3
  else if s = "Loose" then 0.9
  else if s = "Mixed" then 0.6
  else 0.6

/-- Embeds `vegetation_factors.get(vegetation, 0.7)`. -/
def vegetation_factor_of (s : String) : ℚ :=
  if s = "Low" then 1.0
  else if s = "Medium" then 0.7
  else if s = "High" then 0.4
  else 0.7

/-- The four-band rainfall step function of `calculate_landslide_risk`. -/
def rain_factor_of (rainfall : ℚ) : ℚ :=
  if rainfall < 25 then 0.1
  else if rainfall < 75 then 0.4
  else if rainfall < 150 then 0.7
  else 1.0

/-- Fields of the dictionary returned by `calculate_landslide_risk` that are
consumed downstream. -/
structure LandslideResult where
  landslide_risk : ℚ
  risk_category : String
deriving Repr, DecidableEq

/-- Embeds `EnvironmentalHazards.calculate_landslide_risk`. -/
def calculate_landslide_risk (slope rainfall : ℚ) (soil_type : String)
    (base_risk : ℚ) (vegetation : String) : LandslideResult :=
  let slope_factor := min (|slope| / 40) 1.0
  let soil_factor := soil_factor_of soil_type
  let rain_factor := rain_factor_of rainfall
  let veg_factor := vegetation_factor_of vegetation
  let r := min
    (base_risk *
      (slope_factor * 0.35 + soil_factor * 0.30 + rain_factor * 0.25 +
        veg_factor * 0.10)) 1.0
  let category :=
    if 0.7 < r then "CRITICAL"
    else if 0.5 < r then "HIGH"
    else if 0.3 < r then "MEDIUM"
    else "LOW"
  ⟨r, category⟩

/-- Embeds `experience_factors.get(driver_experience, 1.0)`. -/
def experience_factor (s : String) : ℚ :=
  if s = "Novice" then 1.4
  else if s = "Medium" then 1.0
  else if s = "Expert" then 0.75
  else 1.0

/-- The multiplier built by `adjust_for_driver_behavior`: additive flag
increments on 1.0, then multiplied by the experience factor. -/
def risk_multiplier (b : DriverBehavior) : ℚ :=
  (1.0 + (if b.is_night then 0.35 else 0) +
      (if b.is_overspeeding then 0.50 else 0) +
      (if b.poor_visibility then 0.40 else 0)) *
    experience_factor b.driver_experience

/-- Embeds the `adjusted_risk` output of `adjust_for_driver_behavior`. -/
noncomputable def adjust_for_driver_behavior (base_risk : ℝ)
    (b : DriverBehavior) : ℝ :=
  min (base_risk * (risk_multiplier b : ℝ)) 1.0

/-- Per-segment travelled distance of `simulate_vehicle_journey`:
`distanceKm[i] - distanceKm[i-1]` when a predecessor exists, else the fixed
default `0.11`; a non-positive value is then replaced by `0.11`. -/
def segment_distance_of (prev_distance : Option ℚ) (current_distance : ℚ) : ℚ :=
  let d :=
    match prev_distance with
    | none => 0.11
    | some p => current_distance - p
  if d ≤ 0 then 0.11 else d

/-- One row of the engine's output table (the per-segment risk record). -/
structure SegmentRecord where
  segment : ℤ
  distance_km : ℚ
  elevation_m : ℚ
  slope_pct : ℚ
  is_downhill : Bool
  stability_risk : ℝ
  brake_failure_risk : ℝ
  brake_temperature_c : ℝ
  cliff_fall_risk : ℝ
  landslide_risk : ℝ
  combined_risk : ℝ
  final_risk : ℝ
  safe_speed_recommendation : ℚ
  risk_category : String
  brake_status : String
  cliff_severity : String
  landslide_category : String

/-- The body of the per-segment loop of `simulate_vehicle_journey`: resolves
the optional characteristics to their defaults, computes the travelled
distance, runs the four hazard models (the brake model statefully), fuses
them and applies the driver-behavior adjustment.  Returns the new brake
state and the appended record. -/
noncomputable def simulate_segment (v : Vehicle) (env : Environment)
    (speed : ℚ) (b : DriverBehavior) (prev_distance : Option ℚ)
    (st : BrakeState) (seg : Segment) : BrakeState × SegmentRecord :=
  let slope_pct := seg.slopeMagnitude
  let is_downhill := has_minus seg.slopeDirection
  let road_width := seg.roadWidth.getD 7.0
  let curve_sharpness := seg.curveSharpness.getD "Moderate"
  let cliff_present := seg.cliffPresent.getD false
  let guardrail := seg.guardrailPresent.getD true
  let visibility := seg.visibility.getD 80
  let seg_dist := segment_distance_of prev_distance seg.distanceKm
  let stability :=
    calculate_stability_risk v slope_pct road_width curve_sharpness speed
      env.roadFriction
  let bs :=
    calculate_brake_failure_risk v
      (if is_downhill then slope_pct else -slope_pct) seg_dist speed
      is_downhill st
  let cliff :=
    calculate_cliff_fall_risk cliff_present guardrail road_width visibility
      speed stability.stability_risk
  let landslide :=
    calculate_landslide_risk slope_pct env.rainfall env.soilType
      env.landslideRiskBase "Medium"
  let base_combined_risk : ℝ :=
    (stability.stability_risk : ℝ) * 0.25 +
      bs.2.brake_failure_risk * 0.30 +
      (cliff.cliff_fall_risk : ℝ) * 0.25 +
      (landslide.landslide_risk : ℝ) * 0.20
  (bs.1,
    { segment := seg.segmentId
      distance_km := seg.distanceKm
      elevation_m := seg.elevationM
      slope_pct := slope_pct
      is_downhill := is_downhill
      stability_risk := (stability.stability_risk : ℝ)
      brake_failure_risk := bs.2.brake_failure_risk
      brake_temperature_c := bs.2.brake_temperature
      cliff_fall_risk := (cliff.cliff_fall_risk : ℝ)
      landslide_risk := (landslide.landslide_risk : ℝ)
      combined_risk := base_combined_risk
      final_risk := adjust_for_driver_behavior base_combined_risk b
      safe_speed_recommendation := stability.safe_speed_recommendation
      risk_category := seg.riskCategory
      brake_status := bs.2.status
      cliff_severity := cliff.severity
      landslide_category := landslide.risk_category })

/-- The segment loop: left-to-right over the road, threading the previous
segment's cumulative distance and the brake state. -/
noncomputable def simulate_journey_aux (v : Vehicle) (env : Environment)
    (speed : ℚ) (b : DriverBehavior) :
    Option ℚ → BrakeState → List Segment → List SegmentRecord
  | _, _, [] => []
  | prev, st, seg :: rest =>
    let p := simulate_segment v env speed b prev st seg
    p.2 :: simulate_journey_aux v env speed b (some seg.distanceKm) p.1 rest

/-- Embeds `simulate_vehicle_journey` with an explicit speed and behavior (the
source's `None` defaults are resolved by the caller in every claim).  The
brake state starts at ambient 20 °C with zero cumulative usage. -/
noncomputable def simulate_vehicle_journey (road : List Segment)
    (v : Vehicle) (env : Environment) (speed : ℚ) (b : DriverBehavior) :
    List SegmentRecord :=
  simulate_journey_aux v env speed b none ⟨20, 0⟩ road

/-! ### Report lookup logic (src/risk_calculator.py)

`generate_safety_report` consumes the simulation results purely as a table,
so for this part the rows are plain rational-valued data.  Only the fields
read by `identify_dangerous_zones` and the segment lookup are modelled; the
free-text `Danger_Reasons` column and the display-only column projection
are omitted. -/

/-- One row of the `simulation_results` table as seen by
`risk_calculator.py`. -/
structure SimRow where
  segment : ℤ
  distance_km : ℚ
  final_risk : ℚ
  slope_pct : ℚ
  brake_temperature_c : ℚ
  stability_risk : ℚ
  brake_failure_risk : ℚ
  cliff_fall_risk : ℚ
  landslide_risk : ℚ
  landslide_category : String
deriving Repr, DecidableEq

/-- Embeds `RiskFusionEngine.identify_dangerous_zones`:
`simulation_results.nlargest(top_n, 'Final_Risk')` — a stable descending
sort by `Final_Risk` truncated to `top_n` (pandas `keep='first'` tie order
matches the stability of insertion sort). -/
def identify_dangerous_zones (rows : List SimRow) (top_n : ℕ) : List SimRow :=
  (rows.insertionSort fun a b => b.final_risk ≤ a.final_risk).take top_n

/-- Python/pandas positional indexing `df.iloc[i]` for a single integer:
a negative index counts from the end; anything still out of range is an
`IndexError`, modelled as `none`. -/
def iloc {α : Type} (l : List α) (i : ℤ) : Option α :=
  let j := if i < 0 then (l.length : ℤ) + i else i
  if 0 ≤ j then l[j.toNat]? else none

/-- The row `generate_safety_report` feeds to
`generate_segment_recommendations` for a dangerous segment:
`simulation_results.iloc[segment['Segment'] - 1]`. -/
def report_segment_row (rows : List SimRow) (segment_id : ℤ) : Option SimRow :=
  iloc rows (segment_id - 1)

/-- The per-zone lookups performed by `generate_safety_report`: the top-10
dangerous zones are computed, their head-5 is iterated, and each zone's id
is turned into a positional index into the full results table. -/
def report_segment_lookups (rows : List SimRow) : List (ℤ × Option SimRow) :=
  ((identify_dangerous_zones rows 10).take 5).map
    fun z => (z.segment, report_segment_row rows z.segment)

/-- The record list has ids that are exactly the 1-based positions. -/
def well_indexed (rows : List SimRow) : Prop :=
  ∀ i : Fin rows.length, (rows.get i).segment = (i : ℕ) + 1

/-! ### Concrete scenario data (spec §8, claim C1) -/

/-- A flat route segment for the C1 scenario: slope 0, not flagged downhill,
cumulative distance `0.11 * (i+1)` km so every per-segment delta is 0.11 km. -/
def flat_segment (i : ℕ) : Segment :=
  { segmentId := (i : ℤ) + 1
    distanceKm := 0.11 * ((i : ℚ) + 1)
    elevationM := 1000
    slopeMagnitude := 0
    slopeDirection := "0"
    roadWidth := some 7
    curveSharpness := some "Moderate"
    cliffPresent := some false
    guardrailPresent := some true
    visibility := some 80
    riskCategory := "Green" }

/-- The steep downhill segment of the C1 scenario: slope −50 % (magnitude
50, flagged downhill by the direction marker), 0.11 km long. -/
def downhill_segment : Segment :=
  { segmentId := 2
    distanceKm := 0.22
    elevationM := 945
    slopeMagnitude := -50
    slopeDirection := "-50"
    roadWidth := some 7
    curveSharpness := some "Moderate"
    cliffPresent := some false
    guardrailPresent := some true
    visibility := some 80
    riskCategory := "Red" }

/-- The 90-segment route of the C1 scenario: a flat segment, the steep
downhill segment, then 88 more flat segments. -/
def scenario_route : List Segment :=
  flat_segment 0 :: downhill_segment ::
    (List.range 88).map fun i => flat_segment (i + 2)

/-- The "Normal" environment row used to instantiate scenario runs (its
values are irrelevant to every brake-model output). -/
def normal_environment : Environment :=
  { condition := "Normal"
    rainfall := 10
    soilType := "Mixed"
    landslideRiskBase := 0.2
    roadFriction := 0.85 }

/-- All-false behavior flags with Medium experience. -/
def base_behavior : DriverBehavior :=
  { is_night := false
    is_overspeeding := false
    poor_visibility := false
    driver_experience := "Medium" }

/-- A Bus vehicle row matching the scenario constraints (weight 12000 kg,
max safe speed 60 km/h) with brake heat factor 1; the heat factor column is
not fixed by the spec's scenario. -/
def bus_vehicle : Vehicle :=
  { vehicleType := "Bus"
    weight := 12000
    length := 12
    width := 2.5
    brakeCapacity := 1
    maxSafeSpeed := 60
    brakeHeatFactor := 1
    centerOfGravity := 1.8 }

/-- Transcription of the spec's status-threshold table (§4.2): this is the
spec-side definition against which the source's status strings are
compared. -/
noncomputable def spec_status (t : ℝ) : String :=
  if 350 < t then "CRITICAL - Brake Failure Imminent"
  else if 250 < t then "WARNING - Brakes Overheating"
  else if 150 < t then "Caution - Elevated Temperature"
  else "Normal"

/-- The preconditions of the range claims: friction coefficient in [0, 1]
and non-negative physical inputs. -/
def ValidRun (v : Vehicle) (env : Environment) (speed : ℚ) : Prop :=
  0 ≤ v.weight ∧ 0 ≤ v.centerOfGravity ∧ 0 ≤ v.maxSafeSpeed ∧ 0 ≤ speed ∧
    0 ≤ env.roadFriction ∧ env.roadFriction ≤ 1 ∧ 0 ≤ env.landslideRiskBase

/-- All six per-record risk scores lie in the closed interval [0, 1]. -/
def record_risks_bounded (r : SegmentRecord) : Prop :=
  (0 ≤ r.stability_risk ∧ r.stability_risk ≤ 1) ∧
    (0 ≤ r.brake_failure_risk ∧ r.brake_failure_risk ≤ 1) ∧
    (0 ≤ r.cliff_fall_risk ∧ r.cliff_fall_risk ≤ 1) ∧
    (0 ≤ r.landslide_risk ∧ r.landslide_risk ≤ 1) ∧
    (0 ≤ r.combined_risk ∧ r.combined_risk ≤ 1) ∧
    (0 ≤ r.final_risk ∧ r.final_risk ≤ 1)

/-- Row with segment id 2 sitting at position 0. -/
def misindexed_row_a : SimRow := ⟨2, 1, 2, 0, 20, 0, 0, 0, 0, "LOW"⟩

/-- Row with segment id 3 sitting at position 1. -/
def misindexed_row_b : SimRow := ⟨3, 2, 1, 0, 20, 0, 0, 0, 0, "LOW"⟩

/-- A results table whose segment ids are not 1-based positions. -/
def misindexed_rows : List SimRow := [misindexed_row_a, misindexed_row_b]

/-- Row with segment id 2 sitting (correctly) at position 1. -/
def indexed_row_b : SimRow := ⟨2, 2, 3, 0, 20, 0, 0, 0, 0, "LOW"⟩

/-- A correctly indexed two-row results table (ids 1 and 2 at positions 0
and 1). -/
def indexed_rows : List SimRow :=
  [⟨1, 1, 1, 0, 20, 0, 0, 0, 0, "LOW"⟩, indexed_row_b]

/-! ## Theorems -/

/-- Claim C7: per segment, `combinedRisk` is the fixed weighted fusion
0.25/0.30/0.25/0.20 of the four hazard scores, and `finalRisk` is
`min(combinedRisk × multiplier, 1.0)` where the multiplier starts at 1.0,
gains +0.35 for night, +0.50 for overspeeding, +0.40 for poor visibility
additively, and is then multiplied by the experience factor (Novice 1.4,
Medium 1.0, Expert 0.75). -/
theorem C7_risk_fusion_formula (v : Vehicle) (env : Environment) (speed : ℚ)
    (b : DriverBehavior) (prev_distance : Option ℚ) (st : BrakeState)
    (seg : Segment) :
    (simulate_segment v env speed b prev_distance st seg).2.combined_risk =
        0.25 * (simulate_segment v env speed b prev_distance st seg).2.stability_risk +
          0.30 * (simulate_segment v env speed b prev_distance st seg).2.brake_failure_risk +
          0.25 * (simulate_segment v env speed b prev_distance st seg).2.cliff_fall_risk +
          0.20 * (simulate_segment v env speed b prev_distance st seg).2.landslide_risk ∧
      (simulate_segment v env speed b prev_distance st seg).2.final_risk =
        min ((simulate_segment v env speed b prev_distance st seg).2.combined_risk *
          (risk_multiplier b : ℝ)) 1.0 ∧
      risk_multiplier b =
        (1.0 + (if b.is_night then 0.35 else 0) +
            (if b.is_overspeeding then 0.50 else 0) +
            (if b.poor_visibility then 0.40 else 0)) *
          experience_factor b.driver_experience ∧
      experience_factor "Novice" = 1.4 ∧
      experience_factor "Medium" = 1.0 ∧
      experience_factor "Expert" = 0.75 := by
  refine ⟨?_, rfl, rfl, rfl, rfl, rfl⟩
  show (simulate_segment v env speed b prev_distance st seg).2.combined_risk = _
  simp only [simulate_segment]
  ring

/-- Claim C9: a segment whose five optional attributes are all missing is
simulated exactly as if the fixed defaults had been supplied: road width
7.0 m, curve sharpness "Moderate", cliffPresent false, guardrailPresent
true, visibility 80 m. -/
theorem C9_missing_attribute_defaults (v : Vehicle) (env : Environment)
    (speed : ℚ) (b : DriverBehavior) (prev_distance : Option ℚ)
    (st : BrakeState) (segId : ℤ) (dk em sm : ℚ) (sd rc : String) :
    simulate_segment v env speed b prev_distance st
        ⟨segId, dk, em, sm, sd, none, none, none, none, none, rc⟩ =
      simulate_segment v env speed b prev_distance st
        ⟨segId, dk, em, sm, sd, some 7.0, some "Moderate", some false,
          some true, some 80, rc⟩ :=
  rfl

lemma segment_distance_pos (pd : Option ℚ) (cur : ℚ) :
    0 < segment_distance_of pd cur := by
  rcases pd with _ | p
  · simp only [segment_distance_of]
    norm_num
  · simp only [segment_distance_of]
    split
    · norm_num
    · rename_i h
      exact lt_of_not_le h

/-- Claim C8: the travelled distance for a segment with a predecessor is
the delta of cumulative distances when that delta is positive; the first
segment and any non-positive delta fall back to the default 0.11 km; the
result is always positive, and it is exactly the distance handed to the
brake model by the journey loop. -/
theorem C8_segment_distance :
    (∀ cur : ℚ, segment_distance_of none cur = 0.11) ∧
      (∀ p cur : ℚ, 0 < cur - p → segment_distance_of (some p) cur = cur - p) ∧
      (∀ p cur : ℚ, cur - p ≤ 0 → segment_distance_of (some p) cur = 0.11) ∧
      (∀ (pd : Option ℚ) (cur : ℚ), 0 < segment_distance_of pd cur) ∧
      (∀ (v : Vehicle) (env : Environment) (speed : ℚ) (b : DriverBehavior)
          (pd : Option ℚ) (st : BrakeState) (seg : Segment),
        (simulate_segment v env speed b pd st seg).1 =
          (calculate_brake_failure_risk v
              (if has_minus seg.slopeDirection then seg.slopeMagnitude
                else -seg.slopeMagnitude)
              (segment_distance_of pd seg.distanceKm) speed
              (has_minus seg.slopeDirection) st).1) := by
  refine ⟨?_, ?_, ?_, ?_, fun _ _ _ _ _ _ _ => rfl⟩
  · intro cur
    simp only [segment_distance_of]
    norm_num
  · intro p cur h
    simp only [segment_distance_of, if_neg (not_le.mpr h)]
  · intro p cur h
    simp only [segment_distance_of, if_pos h]
  · exact segment_distance_pos

/-- Witness for C8 at concrete inputs. -/
theorem C8_segment_distance_witness :
    segment_distance_of none 5 = 0.11 ∧
      segment_distance_of (some 0.11) 0.22 = 0.22 - 0.11 ∧
      segment_distance_of (some 0.22) 0.22 = 0.11 ∧
      0 < segment_distance_of (some 3) 1 :=
  ⟨C8_segment_distance.1 5,
    C8_segment_distance.2.1 0.11 0.22 (by norm_num),
    C8_segment_distance.2.2.1 0.22 0.22 (by norm_num),
    C8_segment_distance.2.2.2.1 (some 3) 1⟩

/-- Claim C2 (amended): on every downhill (heating-branch) invocation of the
brake model, the returned status is exactly the spec's threshold table
applied to the updated brake temperature; non-downhill invocations instead
always return the fixed "Cooling" status (see the counterexample). -/
theorem C2_downhill_status_thresholds (v : Vehicle) (slope dist speed : ℚ)
    (st : BrakeState) (h : slope < 0) :
    (calculate_brake_failure_risk v slope dist speed true st).2.status =
      spec_status
        (calculate_brake_failure_risk v slope dist speed true st).1.brake_temperature := by
  have hg : ¬ (¬ (true : Bool) = true ∨ 0 ≤ slope) := fun hc =>
    hc.elim (fun h1 => h1 rfl) fun h2 => absurd h2 (not_le.mpr h)
  unfold calculate_brake_failure_risk
  rw [if_neg hg]
  rfl

/-- Witness for C2 at a concrete downhill invocation. -/
theorem C2_downhill_status_witness :
    (calculate_brake_failure_risk bus_vehicle (-50) 0.11 40 true ⟨20, 0⟩).2.status =
      spec_status
        (calculate_brake_failure_risk bus_vehicle (-50) 0.11 40 true
          ⟨20, 0⟩).1.brake_temperature :=
  C2_downhill_status_thresholds bus_vehicle (-50) 0.11 40 ⟨20, 0⟩ (by norm_num)

/-- Counterexample to C2 as stated: a non-downhill invocation returns the
status "Cooling" even though its updated temperature (20 °C, below every
threshold) should map to "Normal" under the spec's table. -/
theorem C2_status_counterexample :
    (calculate_brake_failure_risk bus_vehicle 5 0.11 40 false ⟨20, 0⟩).2.status =
        "Cooling" ∧
      (calculate_brake_failure_risk bus_vehicle 5 0.11 40 false
          ⟨20, 0⟩).1.brake_temperature ≤ 150 ∧
      (calculate_brake_failure_risk bus_vehicle 5 0.11 40 false ⟨20, 0⟩).2.status ≠
        spec_status
          (calculate_brake_failure_risk bus_vehicle 5 0.11 40 false
            ⟨20, 0⟩).1.brake_temperature := by
  have hg : (¬ (false : Bool) = true ∨ 0 ≤ (5 : ℚ)) := Or.inr (by norm_num)
  have hst : (calculate_brake_failure_risk bus_vehicle 5 0.11 40 false
      ⟨20, 0⟩).2.status = "Cooling" := by
    unfold calculate_brake_failure_risk
    rw [if_pos hg]
  have ht : (calculate_brake_failure_risk bus_vehicle 5 0.11 40 false
      ⟨20, 0⟩).1.brake_temperature = 20 := by
    unfold calculate_brake_failure_risk
    rw [if_pos hg]
    show max 20 ((20 : ℝ) - 5) = 20
    rw [max_eq_left (by norm_num : (20 : ℝ) - 5 ≤ 20)]
  refine ⟨hst, by rw [ht]; norm_num, ?_⟩
  rw [hst, ht]
  have hn : spec_status 20 = "Normal" := by
    simp only [spec_status]
    norm_num
  rw [hn]
  decide

/-- Claim C4: after any brake-model invocation the temperature state is at
least 20 °C, and on every non-downhill (cooling-branch) invocation the new
temperature is exactly `max 20 (old − 5)` — hence strictly below the old
temperature whenever the state sits above the 20 °C floor. -/
theorem C4_brake_temperature_floor_and_cooling (v : Vehicle)
    (slope dist speed : ℚ) (down : Bool) (st : BrakeState) :
    20 ≤ (calculate_brake_failure_risk v slope dist speed down st).1.brake_temperature ∧
      ((¬ down = true ∨ 0 ≤ slope) →
        (calculate_brake_failure_risk v slope dist speed down
              st).1.brake_temperature =
            max 20 (st.brake_temperature - 5) ∧
          (20 < st.brake_temperature →
            (calculate_brake_failure_risk v slope dist speed down
                st).1.brake_temperature < st.brake_temperature)) := by
  constructor
  · by_cases hg : (¬ down = true ∨ 0 ≤ slope)
    · unfold calculate_brake_failure_risk
      rw [if_pos hg]
      exact le_max_left _ _
    · unfold calculate_brake_failure_risk
      rw [if_neg hg]
      exact le_max_left _ _
  · intro hg
    have he : (calculate_brake_failure_risk v slope dist speed down
        st).1.brake_temperature = max 20 (st.brake_temperature - 5) := by
      unfold calculate_brake_failure_risk
      rw [if_pos hg]
    exact ⟨he, fun hlt => he ▸ max_lt hlt (by linarith)⟩

/-- Witness for C4 at a concrete cooling invocation starting above the
floor. -/
theorem C4_brake_cooling_witness :
    20 ≤ (calculate_brake_failure_risk bus_vehicle 5 0.11 40 false
        ⟨25, 0⟩).1.brake_temperature ∧
      (calculate_brake_failure_risk bus_vehicle 5 0.11 40 false
        ⟨25, 0⟩).1.brake_temperature < 25 := by
  have h := C4_brake_temperature_floor_and_cooling bus_vehicle 5 0.11 40 false ⟨25, 0⟩
  exact ⟨h.1, (h.2 (Or.inr (by norm_num))).2 (by norm_num)⟩

/-- Claim C6 (amended): cliff-fall risk is exactly 0 whenever no cliff is
present, and with a cliff present the guardrail variant is strictly lower
than the no-guardrail variant whenever the exposure sum is positive — in
particular for any positive speed (with non-negative width and visibility
and a stability risk in [0, 1]); in the fully zero-exposure case both
variants are 0 (see the counterexample). -/
theorem C6_cliff_guardrail :
    (∀ (g : Bool) (w vis sp stab : ℚ),
      (calculate_cliff_fall_risk false g w vis sp stab).cliff_fall_risk = 0) ∧
      (∀ w vis sp stab : ℚ, 0 ≤ w → 0 ≤ vis → 0 < sp → 0 ≤ stab → stab ≤ 1 →
        (calculate_cliff_fall_risk true true w vis sp stab).cliff_fall_risk <
          (calculate_cliff_fall_risk true false w vis sp stab).cliff_fall_risk) := by
  constructor
  · intro g w vis sp stab
    unfold calculate_cliff_fall_risk
    rw [if_pos (by exact fun hc => nomatch hc)]
    norm_num
  · intro w vis sp stab hw hvis hsp hstab hstab1
    have hng : ¬ ¬ (true : Bool) = true := fun hc => hc rfl
    unfold calculate_cliff_fall_risk
    rw [if_neg hng, if_neg hng]
    show min ((0.6 : ℚ) * (if (true : Bool) then 0.25 else 1.2) * _) 1.0 <
      min ((0.6 : ℚ) * (if (false : Bool) then 0.25 else 1.2) * _) 1.0
    rw [if_pos (by exact rfl), if_neg (by exact fun hc => nomatch hc)]
    have hwr0 : (0 : ℚ) ≤ max 0 (1 - w / 7) := le_max_left 0 _
    have hwr1 : max (0 : ℚ) (1 - w / 7) ≤ 1 := by
      refine max_le (by norm_num) ?_
      have hq : (0 : ℚ) ≤ w / 7 := by positivity
      linarith
    have hvr0 : (0 : ℚ) ≤ max 0 (1 - vis / 80) := le_max_left 0 _
    have hvr1 : max (0 : ℚ) (1 - vis / 80) ≤ 1 := by
      refine max_le (by norm_num) ?_
      have hq : (0 : ℚ) ≤ vis / 80 := by positivity
      linarith
    have hsr0 : (0 : ℚ) < min (sp / 60) 1.3 :=
      lt_min (div_pos hsp (by norm_num)) (by norm_num)
    have hsr1 : min (sp / 60) (1.3 : ℚ) ≤ 1.3 := min_le_right _ _
    have ht0 : (0 : ℚ) ≤ stab * 0.8 * 0.20 := by positivity
    have ht1 : stab * 0.8 * 0.20 ≤ 0.16 := by nlinarith
    set S := max (0 : ℚ) (1 - w / 7) * 0.30 + max 0 (1 - vis / 80) * 0.25 +
      min (sp / 60) 1.3 * 0.25 + stab * 0.8 * 0.20 with hS
    have hS0 : 0 < S := by rw [hS]; linarith
    have hS1 : S ≤ 1.035 := by rw [hS]; linarith
    have e1 : min ((0.6 : ℚ) * 0.25 * S) 1.0 = 0.6 * 0.25 * S :=
      min_eq_left (by nlinarith)
    have e2 : min ((0.6 : ℚ) * 1.2 * S) 1.0 = 0.6 * 1.2 * S :=
      min_eq_left (by nlinarith)
    rw [e1, e2]
    nlinarith

/-- Witness for C6 at concrete inputs. -/
theorem C6_cliff_guardrail_witness :
    (calculate_cliff_fall_risk false true 4 30 70 0).cliff_fall_risk = 0 ∧
      (calculate_cliff_fall_risk true true 4 30 70 (1/2)).cliff_fall_risk <
        (calculate_cliff_fall_risk true false 4 30 70 (1/2)).cliff_fall_risk :=
  ⟨C6_cliff_guardrail.1 true 4 30 70 0,
    C6_cliff_guardrail.2 4 30 70 (1/2) (by norm_num) (by norm_num) (by norm_num)
      (by norm_num) (by norm_num)⟩

/-- Counterexample to C6 as stated: at road width 7, visibility 80, speed 0
and stability risk 0, the guardrail and no-guardrail variants are both
exactly 0, so the guardrail risk is not *strictly* lower. -/
theorem C6_zero_exposure_counterexample :
    (calculate_cliff_fall_risk true true 7 80 0 0).cliff_fall_risk = 0 ∧
      (calculate_cliff_fall_risk true false 7 80 0 0).cliff_fall_risk = 0 ∧
      ¬ ((calculate_cliff_fall_risk true true 7 80 0 0).cliff_fall_risk <
          (calculate_cliff_fall_risk true false 7 80 0 0).cliff_fall_risk) := by
  have hng : ¬ ¬ (true : Bool) = true := fun hc => hc rfl
  have hz : ∀ g : Bool,
      (calculate_cliff_fall_risk true g 7 80 0 0).cliff_fall_risk = 0 := by
    intro g
    unfold calculate_cliff_fall_risk
    rw [if_neg hng]
    show min ((0.6 : ℚ) * (if (g : Bool) then 0.25 else 1.2) *
      (max 0 (1 - 7 / 7) * 0.30 + max 0 (1 - 80 / 80) * 0.25 +
        min ((0 : ℚ) / 60) 1.3 * 0.25 + 0 * 0.8 * 0.20)) 1.0 = 0
    have h1 : max (0 : ℚ) (1 - 7 / 7) = 0 := by norm_num
    have h2 : max (0 : ℚ) (1 - 80 / 80) = 0 := by norm_num
    have h3 : min ((0 : ℚ) / 60) 1.3 = 0 := by
      rw [min_eq_left] <;> norm_num
    rw [h1, h2, h3]
    rw [min_eq_left] <;> norm_num
  exact ⟨hz true, hz false, by rw [hz true, hz false]; exact lt_irrefl 0⟩

lemma curve_factor_pos (c : String) : 0 < curve_factor c := by
  unfold curve_factor
  split
  · norm_num
  split
  · norm_num
  split
  · norm_num
  split <;> norm_num

lemma experience_factor_pos (s : String) : 0 < experience_factor s := by
  unfold experience_factor
  split
  · norm_num
  split
  · norm_num
  split <;> norm_num

lemma soil_factor_pos (s : String) : 0 < soil_factor_of s := by
  unfold soil_factor_of
  split
  · norm_num
  split
  · norm_num
  split <;> norm_num

lemma vegetation_factor_pos (s : String) : 0 < vegetation_factor_of s := by
  unfold vegetation_factor_of
  split
  · norm_num
  split
  · norm_num
  split <;> norm_num

lemma rain_factor_pos (rainfall : ℚ) : 0 < rain_factor_of rainfall := by
  unfold rain_factor_of
  split
  · norm_num
  split
  · norm_num
  split <;> norm_num

lemma risk_multiplier_pos (b : DriverBehavior) : 0 < risk_multiplier b := by
  unfold risk_multiplier
  have h1 : (0 : ℚ) ≤ if b.is_night then 0.35 else 0 := by split <;> norm_num
  have h2 : (0 : ℚ) ≤ if b.is_overspeeding then 0.50 else 0 := by
    split <;> norm_num
  have h3 : (0 : ℚ) ≤ if b.poor_visibility then 0.40 else 0 := by
    split <;> norm_num
  have h4 := experience_factor_pos b.driver_experience
  nlinarith

lemma stability_risk_eq (v : Vehicle) (slope road_width : ℚ) (cs : String)
    (speed friction : ℚ) :
    (calculate_stability_risk v slope road_width cs speed friction).stability_risk =
      min (curve_factor cs * (speed / v.maxSafeSpeed) * 1.0 * 0.3 +
        min (|slope| / 35) 1.0 * (v.weight / 12000) * 1.2 * 0.25 +
        max 0 (1 - (road_width - v.width) / 3.0) * 0.2 +
        v.centerOfGravity / 2.5 * curve_factor cs * (speed / v.maxSafeSpeed) * 0.15 +
        (1 - friction) * 0.5 * 0.1) 1.0 :=
  rfl

lemma stability_risk_bounds (v : Vehicle) (slope road_width : ℚ) (cs : String)
    (speed friction : ℚ) (hw : 0 ≤ v.weight) (hcog : 0 ≤ v.centerOfGravity)
    (hms : 0 ≤ v.maxSafeSpeed) (hsp : 0 ≤ speed) (hf : friction ≤ 1) :
    0 ≤ (calculate_stability_risk v slope road_width cs speed friction).stability_risk ∧
      (calculate_stability_risk v slope road_width cs speed friction).stability_risk ≤ 1 := by
  rw [stability_risk_eq]
  constructor
  · refine le_min ?_ (by norm_num)
    have hcf := (curve_factor_pos cs).le
    have hr : (0 : ℚ) ≤ speed / v.maxSafeSpeed := div_nonneg hsp hms
    have h1 : (0 : ℚ) ≤ curve_factor cs * (speed / v.maxSafeSpeed) * 1.0 :=
      mul_nonneg (mul_nonneg hcf hr) (by norm_num)
    have h2 : (0 : ℚ) ≤ min (|slope| / 35) 1.0 * (v.weight / 12000) * 1.2 :=
      mul_nonneg
        (mul_nonneg (le_min (by positivity) (by norm_num))
          (div_nonneg hw (by norm_num)))
        (by norm_num)
    have h3 : (0 : ℚ) ≤ max 0 (1 - (road_width - v.width) / 3.0) :=
      le_max_left _ _
    have h4 : (0 : ℚ) ≤
        v.centerOfGravity / 2.5 * curve_factor cs * (speed / v.maxSafeSpeed) :=
      mul_nonneg (mul_nonneg (div_nonneg hcog (by norm_num)) hcf) hr
    have h5 : (0 : ℚ) ≤ (1 - friction) * 0.5 :=
      mul_nonneg (by linarith) (by norm_num)
    linarith
  · exact (min_le_right _ _).trans (by norm_num)

lemma cliff_risk_bounds (cp g : Bool) (w vis sp stab : ℚ) (hsp : 0 ≤ sp)
    (hstab : 0 ≤ stab) :
    0 ≤ (calculate_cliff_fall_risk cp g w vis sp stab).cliff_fall_risk ∧
      (calculate_cliff_fall_risk cp g w vis sp stab).cliff_fall_risk ≤ 1 := by
  unfold calculate_cliff_fall_risk
  rcases cp with _ | _
  · rw [if_pos (by exact fun hc => nomatch hc)]
    norm_num
  · rw [if_neg (by exact fun hc => hc rfl)]
    show 0 ≤ min ((0.6 : ℚ) * (if (g : Bool) then 0.25 else 1.2) * _) 1.0 ∧
      min ((0.6 : ℚ) * (if (g : Bool) then 0.25 else 1.2) * _) 1.0 ≤ 1
    have hpf : (0 : ℚ) ≤ (if (g : Bool) then 0.25 else 1.2) := by
      split <;> norm_num
    have hS : (0 : ℚ) ≤ max 0 (1 - w / 7) * 0.30 + max 0 (1 - vis / 80) * 0.25 +
        min (sp / 60) 1.3 * 0.25 + stab * 0.8 * 0.20 := by
      have h1 : (0 : ℚ) ≤ max 0 (1 - w / 7) := le_max_left _ _
      have h2 : (0 : ℚ) ≤ max 0 (1 - vis / 80) := le_max_left _ _
      have h3 : (0 : ℚ) ≤ min (sp / 60) 1.3 :=
        le_min (div_nonneg hsp (by norm_num)) (by norm_num)
      have h4 : (0 : ℚ) ≤ stab * 0.8 * 0.20 := by positivity
      linarith
    constructor
    · exact le_min (by positivity) (by norm_num)
    · exact (min_le_right _ _).trans (by norm_num)

lemma landslide_risk_bounds (slope rainfall : ℚ) (soil : String) (base : ℚ)
    (veg : String) (hb : 0 ≤ base) :
    0 ≤ (calculate_landslide_risk slope rainfall soil base veg).landslide_risk ∧
      (calculate_landslide_risk slope rainfall soil base veg).landslide_risk ≤ 1 := by
  unfold calculate_landslide_risk
  show 0 ≤ min (base * _) 1.0 ∧ min (base * _) 1.0 ≤ 1
  have h0 : (0 : ℚ) ≤ min (|slope| / 40) 1.0 := le_min (by positivity) (by norm_num)
  have h1 := (soil_factor_pos soil).le
  have h2 := (rain_factor_pos rainfall).le
  have h3 := (vegetation_factor_pos veg).le
  constructor
  · refine le_min (mul_nonneg hb ?_) (by norm_num)
    nlinarith
  · exact (min_le_right _ _).trans (by norm_num)

lemma brake_step_props (v : Vehicle) (slope dist speed : ℚ) (down : Bool)
    (st : BrakeState) (hu : 0 ≤ st.cumulative_brake_usage) (hd : 0 ≤ dist) :
    0 ≤ (calculate_brake_failure_risk v slope dist speed down
        st).1.cumulative_brake_usage ∧
      0 ≤ (calculate_brake_failure_risk v slope dist speed down
        st).2.brake_failure_risk ∧
      (calculate_brake_failure_risk v slope dist speed down
        st).2.brake_failure_risk ≤ 1 := by
  by_cases hg : (¬ down = true ∨ 0 ≤ slope)
  · unfold calculate_brake_failure_risk
    rw [if_pos hg]
    refine ⟨le_max_left _ _, ?_, ?_⟩ <;> norm_num
  · unfold calculate_brake_failure_risk
    rw [if_neg hg]
    refine ⟨?_, ?_, ?_⟩
    · show 0 ≤ st.cumulative_brake_usage + |slope| / 30 * (dist / 0.11)
      have h1 : (0 : ℚ) ≤ |slope| / 30 * (dist / 0.11) :=
        mul_nonneg (by positivity) (div_nonneg hd (by norm_num))
      linarith
    · show (0 : ℝ) ≤ min (_ * 0.7 + _ * 0.3) 1.0
      refine le_min (add_nonneg (mul_nonneg ?_ (by norm_num))
        (mul_nonneg ?_ (by norm_num))) (by norm_num)
      · split
        · rename_i h
          refine div_nonneg ?_ (by norm_num)
          linarith
        · exact le_refl 0
      · have hq : (0 : ℚ) ≤ min ((st.cumulative_brake_usage +
            |slope| / 30 * (dist / 0.11)) / 10) 1.0 := by
          refine le_min (by positivity) (by norm_num)
        exact_mod_cast hq
    · show min (_ * 0.7 + _ * 0.3) (1.0 : ℝ) ≤ 1
      exact (min_le_right _ _).trans (by norm_num)

lemma simulate_segment_invariants (v : Vehicle) (env : Environment)
    (speed : ℚ) (b : DriverBehavior) (pd : Option ℚ) (st : BrakeState)
    (seg : Segment) (hrun : ValidRun v env speed)
    (hu : 0 ≤ st.cumulative_brake_usage) :
    0 ≤ (simulate_segment v env speed b pd st seg).1.cumulative_brake_usage ∧
      record_risks_bounded (simulate_segment v env speed b pd st seg).2 := by
  obtain ⟨hw, hcog, hms, hsp, _, hf, hb⟩ := hrun
  have hdist : 0 ≤ segment_distance_of pd seg.distanceKm :=
    (segment_distance_pos pd seg.distanceKm).le
  have hbrake := brake_step_props v
    (if has_minus seg.slopeDirection then seg.slopeMagnitude
      else -seg.slopeMagnitude)
    (segment_distance_of pd seg.distanceKm) speed
    (has_minus seg.slopeDirection) st hu hdist
  have hstab := stability_risk_bounds v seg.slopeMagnitude
    (seg.roadWidth.getD 7.0) (seg.curveSharpness.getD "Moderate") speed
    env.roadFriction hw hcog hms hsp hf
  have hcliff := cliff_risk_bounds (seg.cliffPresent.getD false)
    (seg.guardrailPresent.getD true) (seg.roadWidth.getD 7.0)
    (seg.visibility.getD 80) speed
    (calculate_stability_risk v seg.slopeMagnitude (seg.roadWidth.getD 7.0)
      (seg.curveSharpness.getD "Moderate") speed
      env.roadFriction).stability_risk hsp hstab.1
  have hland := landslide_risk_bounds seg.slopeMagnitude env.rainfall
    env.soilType env.landslideRiskBase "Medium" hb
  refine ⟨hbrake.1, ?_⟩
  have hstabR : (0 : ℝ) ≤ (simulate_segment v env speed b pd st seg).2.stability_risk ∧
      (simulate_segment v env speed b pd st seg).2.stability_risk ≤ 1 := by
    constructor
    · exact Rat.cast_nonneg.mpr hstab.1
    · exact le_trans (Rat.cast_le.mpr hstab.2) (by norm_num)
  have hcliffR : (0 : ℝ) ≤ (simulate_segment v env speed b pd st seg).2.cliff_fall_risk ∧
      (simulate_segment v env speed b pd st seg).2.cliff_fall_risk ≤ 1 := by
    constructor
    · exact Rat.cast_nonneg.mpr hcliff.1
    · exact le_trans (Rat.cast_le.mpr hcliff.2) (by norm_num)
  have hlandR : (0 : ℝ) ≤ (simulate_segment v env speed b pd st seg).2.landslide_risk ∧
      (simulate_segment v env speed b pd st seg).2.landslide_risk ≤ 1 := by
    constructor
    · exact Rat.cast_nonneg.mpr hland.1
    · exact le_trans (Rat.cast_le.mpr hland.2) (by norm_num)
  have hbrakeR : (0 : ℝ) ≤ (simulate_segment v env speed b pd st seg).2.brake_failure_risk ∧
      (simulate_segment v env speed b pd st seg).2.brake_failure_risk ≤ 1 :=
    ⟨hbrake.2.1, hbrake.2.2⟩
  have hcomb : (0 : ℝ) ≤ (simulate_segment v env speed b pd st seg).2.combined_risk ∧
      (simulate_segment v env speed b pd st seg).2.combined_risk ≤ 1 := by
    have he : (simulate_segment v env speed b pd st seg).2.combined_risk =
        (simulate_segment v env speed b pd st seg).2.stability_risk * 0.25 +
          (simulate_segment v env speed b pd st seg).2.brake_failure_risk * 0.30 +
          (simulate_segment v env speed b pd st seg).2.cliff_fall_risk * 0.25 +
          (simulate_segment v env speed b pd st seg).2.landslide_risk * 0.20 := rfl
    rw [he]
    constructor
    · nlinarith [hstabR.1, hbrakeR.1, hcliffR.1, hlandR.1]
    · nlinarith [hstabR.2, hbrakeR.2, hcliffR.2, hlandR.2, hstabR.1,
        hbrakeR.1, hcliffR.1, hlandR.1]
  refine ⟨hstabR, hbrakeR, hcliffR, hlandR, hcomb, ?_⟩
  have hm := (risk_multiplier_pos b).le
  have hmR : (0 : ℝ) ≤ (risk_multiplier b : ℝ) := by exact_mod_cast hm
  have hf2 : (simulate_segment v env speed b pd st seg).2.final_risk =
      min ((simulate_segment v env speed b pd st seg).2.combined_risk *
        (risk_multiplier b : ℝ)) 1.0 := rfl
  rw [hf2]
  constructor
  · exact le_min (mul_nonneg hcomb.1 hmR) (by norm_num)
  · exact (min_le_right _ _).trans (by norm_num)

lemma simulate_journey_aux_bounded (v : Vehicle) (env : Environment)
    (speed : ℚ) (b : DriverBehavior) (hrun : ValidRun v env speed) :
    ∀ (road : List Segment) (pd : Option ℚ) (st : BrakeState),
      0 ≤ st.cumulative_brake_usage →
      ∀ r ∈ simulate_journey_aux v env speed b pd st road,
        record_risks_bounded r := by
  intro road
  induction road with
  | nil =>
    intro pd st hu r hr
    exact absurd hr (List.not_mem_nil r)
  | cons seg rest ih =>
    intro pd st hu r hr
    have hstep := simulate_segment_invariants v env speed b pd st seg hrun hu
    rw [simulate_journey_aux] at hr
    rcases List.mem_cons.mp hr with h | h
    · exact h ▸ hstep.2
    · exact ih (some seg.distanceKm) _ hstep.1 r h

/-- Claim C3: in every journey run under the claim's preconditions
(friction in [0, 1], non-negative physical inputs), every produced record
has all six risk scores — stability, brake failure, cliff fall, landslide,
combined and final — inside the closed interval [0, 1]. -/
theorem C3_risk_scores_in_unit_interval (road : List Segment) (v : Vehicle)
    (env : Environment) (speed : ℚ) (b : DriverBehavior)
    (hrun : ValidRun v env speed) :
    ∀ r ∈ simulate_vehicle_journey road v env speed b,
      record_risks_bounded r :=
  simulate_journey_aux_bounded v env speed b hrun road none ⟨20, 0⟩ le_rfl

/-- Witness for C3 on a concrete one-segment journey. -/
theorem C3_risk_scores_witness :
    ValidRun bus_vehicle normal_environment 40 ∧
      ∀ r ∈ simulate_vehicle_journey [flat_segment 0] bus_vehicle
          normal_environment 40 base_behavior,
        record_risks_bounded r := by
  have hv : ValidRun bus_vehicle normal_environment 40 := by
    refine ⟨?_, ?_, ?_, ?_, ?_, ?_, ?_⟩ <;> norm_num [bus_vehicle, normal_environment]
  exact ⟨hv, C3_risk_scores_in_unit_interval [flat_segment 0] bus_vehicle
    normal_environment 40 base_behavior hv⟩

lemma ite_flag_le (x y : Bool) (c : ℚ) (hc : 0 ≤ c)
    (h : x = true → y = true) :
    (if x then c else 0) ≤ (if y then c else 0) := by
  cases x <;> cases y <;> simp_all

lemma risk_multiplier_mono (b b' : DriverBehavior)
    (hexp : b.driver_experience = b'.driver_experience)
    (hn : b.is_night = true → b'.is_night = true)
    (ho : b.is_overspeeding = true → b'.is_overspeeding = true)
    (hv : b.poor_visibility = true → b'.poor_visibility = true) :
    risk_multiplier b ≤ risk_multiplier b' := by
  unfold risk_multiplier
  rw [hexp]
  have h1 := ite_flag_le _ _ (0.35 : ℚ) (by norm_num) hn
  have h2 := ite_flag_le _ _ (0.50 : ℚ) (by norm_num) ho
  have h3 := ite_flag_le _ _ (0.40 : ℚ) (by norm_num) hv
  have h4 := (experience_factor_pos b'.driver_experience).le
  apply mul_le_mul_of_nonneg_right _ h4
  linarith

lemma simulate_segment_final_mono (v : Vehicle) (env : Environment)
    (speed : ℚ) (b b' : DriverBehavior) (pd : Option ℚ) (st : BrakeState)
    (seg : Segment) (hrun : ValidRun v env speed)
    (hu : 0 ≤ st.cumulative_brake_usage)
    (hm : risk_multiplier b ≤ risk_multiplier b') :
    (simulate_segment v env speed b pd st seg).2.final_risk ≤
      (simulate_segment v env speed b' pd st seg).2.final_risk := by
  have hcomb0 : (0 : ℝ) ≤ (simulate_segment v env speed b pd st seg).2.combined_risk :=
    ((simulate_segment_invariants v env speed b pd st seg hrun hu).2).2.2.2.2.1.1
  have he : (simulate_segment v env speed b pd st seg).2.final_risk =
      min ((simulate_segment v env speed b pd st seg).2.combined_risk *
        (risk_multiplier b : ℝ)) 1.0 := rfl
  have he2 : (simulate_segment v env speed b' pd st seg).2.final_risk =
      min ((simulate_segment v env speed b pd st seg).2.combined_risk *
        (risk_multiplier b' : ℝ)) 1.0 := rfl
  rw [he, he2]
  exact min_le_min
    (mul_le_mul_of_nonneg_left (Rat.cast_le.mpr hm) hcomb0) le_rfl

lemma simulate_journey_aux_final_mono (v : Vehicle) (env : Environment)
    (speed : ℚ) (b b' : DriverBehavior) (hrun : ValidRun v env speed)
    (hm : risk_multiplier b ≤ risk_multiplier b') :
    ∀ (road : List Segment) (pd : Option ℚ) (st : BrakeState),
      0 ≤ st.cumulative_brake_usage →
      List.Forall₂ (fun r r' => r.final_risk ≤ r'.final_risk)
        (simulate_journey_aux v env speed b pd st road)
        (simulate_journey_aux v env speed b' pd st road) := by
  intro road
  induction road with
  | nil =>
    intro pd st hu
    simp only [simulate_journey_aux]
    exact List.Forall₂.nil
  | cons seg rest ih =>
    intro pd st hu
    simp only [simulate_journey_aux]
    refine List.Forall₂.cons
      (simulate_segment_final_mono v env speed b b' pd st seg hrun hu hm) ?_
    have hst : (simulate_segment v env speed b' pd st seg).1 =
        (simulate_segment v env speed b pd st seg).1 := rfl
    rw [hst]
    exact ih (some seg.distanceKm) _
      (simulate_segment_invariants v env speed b pd st seg hrun hu).1

/-- Claim C5: for a fixed vehicle, environment, speed and segment list,
turning on any subset of the behavior flags (in particular any single one
of night / overspeeding / poor visibility) while keeping the experience
level fixed never decreases any segment's `finalRisk`. -/
theorem C5_behavior_flag_monotone (road : List Segment) (v : Vehicle)
    (env : Environment) (speed : ℚ) (b b' : DriverBehavior)
    (hrun : ValidRun v env speed)
    (hexp : b.driver_experience = b'.driver_experience)
    (hn : b.is_night = true → b'.is_night = true)
    (ho : b.is_overspeeding = true → b'.is_overspeeding = true)
    (hv : b.poor_visibility = true → b'.poor_visibility = true) :
    List.Forall₂ (fun r r' => r.final_risk ≤ r'.final_risk)
      (simulate_vehicle_journey road v env speed b)
      (simulate_vehicle_journey road v env speed b') :=
  simulate_journey_aux_final_mono v env speed b b' hrun
    (risk_multiplier_mono b b' hexp hn ho hv) road none ⟨20, 0⟩ le_rfl

/-- Witness for C5: enabling the night flag on a concrete one-segment
journey. -/
theorem C5_behavior_flag_witness :
    List.Forall₂ (fun r r' => r.final_risk ≤ r'.final_risk)
      (simulate_vehicle_journey [flat_segment 0] bus_vehicle
        normal_environment 40 base_behavior)
      (simulate_vehicle_journey [flat_segment 0] bus_vehicle
        normal_environment 40 ⟨true, false, false, "Medium"⟩) := by
  have hv : ValidRun bus_vehicle normal_environment 40 := by
    refine ⟨?_, ?_, ?_, ?_, ?_, ?_, ?_⟩ <;> norm_num [bus_vehicle, normal_environment]
  exact C5_behavior_flag_monotone [flat_segment 0] bus_vehicle
    normal_environment 40 base_behavior ⟨true, false, false, "Medium"⟩ hv rfl
    (fun _ => rfl) (fun h => h) (fun h => h)

/-- Claim C10: the safety report resolves each dangerous zone by the
positional index `Segment − 1` into the results table; on a table whose
ids are exactly the 1-based positions this returns precisely the zone's own
row, while on a mis-indexed table it returns a different segment's row (id
2 resolves to the row of segment 3) or falls outside the table (id 3
resolves to nothing). -/
theorem C10_report_positional_lookup :
    (∀ rows : List SimRow, well_indexed rows →
      ∀ z ∈ (identify_dangerous_zones rows 10).take 5,
        report_segment_row rows z.segment = some z) ∧
      (identify_dangerous_zones misindexed_rows 10).take 5 =
          [misindexed_row_a, misindexed_row_b] ∧
      report_segment_row misindexed_rows misindexed_row_a.segment =
          some misindexed_row_b ∧
      misindexed_row_b.segment ≠ misindexed_row_a.segment ∧
      report_segment_row misindexed_rows misindexed_row_b.segment = none := by
  refine ⟨?_, by decide, by decide, by decide, by decide⟩
  intro rows hwi z hz
  have hz1 : z ∈ rows := by
    have h1 := List.mem_of_mem_take hz
    unfold identify_dangerous_zones at h1
    have h2 := List.mem_of_mem_take h1
    exact (List.perm_insertionSort _ rows).mem_iff.mp h2
  obtain ⟨⟨k, hk⟩, hget⟩ := List.mem_iff_get.mp hz1
  have hseg : z.segment = (k : ℤ) + 1 := by
    rw [← hget]
    exact hwi ⟨k, hk⟩
  unfold report_segment_row iloc
  rw [hseg]
  have hj : ((k : ℤ) + 1 - 1) = (k : ℤ) := by ring
  rw [hj]
  rw [if_neg (not_lt.mpr (Int.natCast_nonneg k)), if_pos (Int.natCast_nonneg k)]
  rw [Int.toNat_natCast]
  rw [List.getElem?_eq_getElem hk]
  rw [← hget]
  rfl

/-- Witness for C10 on a correctly indexed table. -/
theorem C10_report_lookup_witness :
    report_segment_row indexed_rows indexed_row_b.segment =
      some indexed_row_b :=
  C10_report_positional_lookup.1 indexed_rows
    (by unfold well_indexed; decide) indexed_row_b (by decide)

lemma round1_mono {x y : ℝ} (hxy : x ≤ y) : round1 x ≤ round1 y := by
  unfold round1
  have h : round (10 * x) ≤ round (10 * y) := by
    rw [round_eq, round_eq]
    exact Int.floor_mono (by linarith)
  have h2 : ((round (10 * x) : ℤ) : ℝ) ≤ ((round (10 * y) : ℤ) : ℝ) :=
    Int.cast_le.mpr h
  linarith

lemma round1_twenty : round1 20 = 20 := by
  unfold round1
  rw [show (10 : ℝ) * 20 = ((200 : ℤ) : ℝ) by norm_num, round_intCast]
  norm_num

lemma round1_ge_twenty {x : ℝ} (hx : 20 ≤ x) : 20 ≤ round1 x :=
  round1_twenty ▸ round1_mono hx

lemma sin_atan_pct_nonneg (q : ℚ) (hq : 0 ≤ q) : 0 ≤ sin_atan_pct q := by
  unfold sin_atan_pct
  refine Real.sin_nonneg_of_nonneg_of_le_pi ?_ ?_
  · rw [← Real.arctan_zero]
    refine Real.arctan_strictMono.monotone (by positivity)
  · refine (Real.arctan_lt_pi_div_two _).le.trans ?_
    linarith [Real.pi_pos]

lemma sin_atan_pct_le_one (q : ℚ) : sin_atan_pct q ≤ 1 :=
  Real.sin_le_one _

lemma brake_cooling_at_floor (v : Vehicle) (slope dist speed : ℚ)
    (down : Bool) (hg : (¬ down = true ∨ 0 ≤ slope)) :
    calculate_brake_failure_risk v slope dist speed down ⟨20, 0⟩ =
      (⟨20, 0⟩, ⟨20, 0.0, "Cooling"⟩) := by
  unfold calculate_brake_failure_risk
  rw [if_pos hg]
  have h1 : max (20 : ℝ) (20 - 5) = 20 := max_eq_left (by norm_num)
  have h2 : max (0 : ℚ) (0 - 0.1) = 0 := max_eq_left (by norm_num)
  show ((⟨max 20 (20 - 5), max 0 (0 - 0.1)⟩ : BrakeState),
      (⟨max 20 (20 - 5), 0.0, "Cooling"⟩ : BrakeResult)) =
    ((⟨20, 0⟩ : BrakeState), (⟨20, 0.0, "Cooling"⟩ : BrakeResult))
  rw [h1, h2]

lemma flat_segment_step (v : Vehicle) (env : Environment) (speed : ℚ)
    (b : DriverBehavior) (pd : Option ℚ) (i : ℕ) :
    (simulate_segment v env speed b pd ⟨20, 0⟩ (flat_segment i)).1 = ⟨20, 0⟩ ∧
      (simulate_segment v env speed b pd ⟨20, 0⟩
        (flat_segment i)).2.brake_failure_risk = 0 ∧
      (simulate_segment v env speed b pd ⟨20, 0⟩
        (flat_segment i)).2.brake_temperature_c = 20 := by
  have hg : (¬ has_minus (flat_segment i).slopeDirection = true ∨
      0 ≤ (if has_minus (flat_segment i).slopeDirection
        then (flat_segment i).slopeMagnitude
        else -(flat_segment i).slopeMagnitude)) := by
    left
    show ¬ has_minus "0" = true
    decide
  have hb := brake_cooling_at_floor v
    (if has_minus (flat_segment i).slopeDirection
      then (flat_segment i).slopeMagnitude
      else -(flat_segment i).slopeMagnitude)
    (segment_distance_of pd (flat_segment i).distanceKm) speed
    (has_minus (flat_segment i).slopeDirection) hg
  refine ⟨congrArg Prod.fst hb, ?_, ?_⟩
  · have h := congrArg (fun p => p.2.brake_failure_risk) hb
    simp only at h
    rw [show (simulate_segment v env speed b pd ⟨20, 0⟩
        (flat_segment i)).2.brake_failure_risk =
      (calculate_brake_failure_risk v
        (if has_minus (flat_segment i).slopeDirection
          then (flat_segment i).slopeMagnitude
          else -(flat_segment i).slopeMagnitude)
        (segment_distance_of pd (flat_segment i).distanceKm) speed
        (has_minus (flat_segment i).slopeDirection)
        ⟨20, 0⟩).2.brake_failure_risk from rfl, h]
    norm_num
  · have h := congrArg (fun p => p.2.brake_temperature) hb
    simp only at h
    rw [show (simulate_segment v env speed b pd ⟨20, 0⟩
        (flat_segment i)).2.brake_temperature_c =
      (calculate_brake_failure_risk v
        (if has_minus (flat_segment i).slopeDirection
          then (flat_segment i).slopeMagnitude
          else -(flat_segment i).slopeMagnitude)
        (segment_distance_of pd (flat_segment i).distanceKm) speed
        (has_minus (flat_segment i).slopeDirection)
        ⟨20, 0⟩).2.brake_temperature from rfl, h]

lemma brake_heating_eq (v : Vehicle) (slope dist speed : ℚ) (st : BrakeState)
    (hs : slope < 0) :
    calculate_brake_failure_risk v slope dist speed true st =
      (let temp_increase := (v.weight : ℝ) * 9.81 *
          (((dist * 1000 : ℚ) : ℝ) * sin_atan_pct |slope|) *
          (v.brakeHeatFactor : ℝ) / (50 * 500 * 1000) *
          ((speed / v.maxSafeSpeed * 2.0 : ℚ) : ℝ)
        let t := max 20 (st.brake_temperature + temp_increase - 2)
        let u := st.cumulative_brake_usage + |slope| / 30 * (dist / 0.11)
        (⟨t, u⟩,
          ⟨round1 t,
            min ((if 200 < t then (t - 200) / 200 else 0) * 0.7 +
              ((min (u / 10) 1.0 : ℚ) : ℝ) * 0.3) 1.0,
            if 350 < t then "CRITICAL - Brake Failure Imminent"
            else if 250 < t then "WARNING - Brakes Overheating"
            else if 150 < t then "Caution - Elevated Temperature"
            else "Normal"⟩)) := by
  unfold calculate_brake_failure_risk
  rw [if_neg (fun hc =>
    hc.elim (fun h1 => h1 rfl) fun h2 => absurd h2 (not_le.mpr hs))]

lemma downhill_segment_step (v : Vehicle) (env : Environment) (speed : ℚ)
    (b : DriverBehavior) (pd : Option ℚ)
    (hpd : segment_distance_of pd downhill_segment.distanceKm = 0.11) :
    0 < (simulate_segment v env speed b pd ⟨20, 0⟩
        downhill_segment).2.brake_failure_risk ∧
      20 ≤ (simulate_segment v env speed b pd ⟨20, 0⟩
        downhill_segment).2.brake_temperature_c := by
  have e1 : (simulate_segment v env speed b pd ⟨20, 0⟩
      downhill_segment).2.brake_failure_risk =
      (calculate_brake_failure_risk v (-50)
        (segment_distance_of pd downhill_segment.distanceKm) speed true
        ⟨20, 0⟩).2.brake_failure_risk := rfl
  have e2 : (simulate_segment v env speed b pd ⟨20, 0⟩
      downhill_segment).2.brake_temperature_c =
      (calculate_brake_failure_risk v (-50)
        (segment_distance_of pd downhill_segment.distanceKm) speed true
        ⟨20, 0⟩).2.brake_temperature := rfl
  have hb := brake_heating_eq v (-50) 0.11 speed ⟨20, 0⟩ (by norm_num)
  constructor
  · rw [e1, hpd, hb]
    dsimp only
    have hu : ((0 : ℚ) + |(-50 : ℚ)| / 30 * ((0.11 : ℚ) / 0.11)) / 10 = 1 / 6 := by
      norm_num
    rw [hu, min_eq_left (by norm_num : (1 / 6 : ℚ) ≤ 1.0)]
    have hc : (((1 / 6 : ℚ)) : ℝ) = 1 / 6 := by norm_num
    rw [hc]
    refine lt_min ?_ (by norm_num)
    have htr : (0 : ℝ) ≤ (if (200 : ℝ) < max 20 ((20 : ℝ) +
        (v.weight : ℝ) * 9.81 * (((0.11 * 1000 : ℚ) : ℝ) *
          sin_atan_pct |(-50 : ℚ)|) * (v.brakeHeatFactor : ℝ) /
          (50 * 500 * 1000) * ((speed / v.maxSafeSpeed * 2.0 : ℚ) : ℝ) - 2)
        then (max 20 ((20 : ℝ) +
          (v.weight : ℝ) * 9.81 * (((0.11 * 1000 : ℚ) : ℝ) *
            sin_atan_pct |(-50 : ℚ)|) * (v.brakeHeatFactor : ℝ) /
            (50 * 500 * 1000) * ((speed / v.maxSafeSpeed * 2.0 : ℚ) : ℝ) - 2) -
          200) / 200 else 0) := by
      split
      · rename_i hcond
        refine div_nonneg ?_ (by norm_num)
        linarith
      · exact le_refl 0
    nlinarith
  · rw [e2, hpd, hb]
    dsimp only
    exact round1_ge_twenty (le_max_left _ _)

lemma downhill_temp_at_unit_heat (pd : Option ℚ)
    (hpd : segment_distance_of pd downhill_segment.distanceKm = 0.11) :
    (simulate_segment bus_vehicle normal_environment 40 base_behavior pd
      ⟨20, 0⟩ downhill_segment).2.brake_temperature_c = 20 := by
  have e2 : (simulate_segment bus_vehicle normal_environment 40 base_behavior
      pd ⟨20, 0⟩ downhill_segment).2.brake_temperature_c =
      (calculate_brake_failure_risk bus_vehicle (-50)
        (segment_distance_of pd downhill_segment.distanceKm) 40 true
        ⟨20, 0⟩).2.brake_temperature := rfl
  rw [e2, hpd, brake_heating_eq bus_vehicle (-50) 0.11 40 ⟨20, 0⟩ (by norm_num)]
  dsimp only
  rw [show bus_vehicle.weight = 12000 from rfl,
    show bus_vehicle.brakeHeatFactor = 1 from rfl,
    show bus_vehicle.maxSafeSpeed = 60 from rfl]
  have habs : |(-50 : ℚ)| = 50 := by norm_num
  rw [habs]
  have hsin0 := sin_atan_pct_nonneg 50 (by norm_num)
  have hsin1 := sin_atan_pct_le_one 50
  have hc1 : (((0.11 * 1000 : ℚ)) : ℝ) = 110 := by norm_num
  have hc2 : ((((40 : ℚ) / 60 * 2.0 : ℚ)) : ℝ) = 4 / 3 := by norm_num
  have hc3 : (((12000 : ℚ)) : ℝ) = 12000 := by norm_num
  have hc4 : (((1 : ℚ)) : ℝ) = 1 := by norm_num
  rw [hc1, hc2, hc3, hc4]
  have hE : (12000 : ℝ) * 9.81 * (110 * sin_atan_pct 50) * 1 /
      (50 * 500 * 1000) * (4 / 3) ≤ 2 := by nlinarith
  rw [max_eq_left (by linarith)]
  exact round1_twenty

/-- Claim C1 (amended): in the spec's scenario — weight-12000, max-safe-60
vehicle, speed 40, a 90-segment route whose second segment is the steep
−50 % downhill of length 0.11 km — the downhill segment's brakeFailureRisk
strictly exceeds the adjacent flat segment's (which is exactly 0), and its
brakeTemperature is ≥ the prior segment's; the strict temperature rise of
the original claim holds only for large brake-heat factors (see the
counterexample). -/
theorem C1_steep_downhill_scenario (v : Vehicle) (_hw : v.weight = 12000)
    (_hms : v.maxSafeSpeed = 60) (env : Environment) (b : DriverBehavior) :
    ∃ r0 r1 rest,
      simulate_vehicle_journey scenario_route v env 40 b = r0 :: r1 :: rest ∧
        r0.brake_failure_risk = 0 ∧
        r0.brake_failure_risk < r1.brake_failure_risk ∧
        r0.brake_temperature_c ≤ r1.brake_temperature_c := by
  have hflat := flat_segment_step v env 40 b none 0
  have hpd : segment_distance_of (some (flat_segment 0).distanceKm)
      downhill_segment.distanceKm = 0.11 := by
    show segment_distance_of (some (0.11 * ((0 : ℕ) + 1 : ℚ))) 0.22 = 0.11
    unfold segment_distance_of
    rw [if_neg (by norm_num)]
    norm_num
  have hdown := downhill_segment_step v env 40 b
    (some (flat_segment 0).distanceKm) hpd
  refine ⟨_, _, _, rfl, hflat.2.1, ?_, ?_⟩
  · rw [hflat.2.1, hflat.1]
    exact hdown.1
  · rw [hflat.2.2, hflat.1]
    exact hdown.2

/-- Witness for C1 at the concrete Bus row. -/
theorem C1_steep_downhill_witness :
    ∃ r0 r1 rest,
      simulate_vehicle_journey scenario_route bus_vehicle normal_environment
          40 base_behavior = r0 :: r1 :: rest ∧
        r0.brake_failure_risk = 0 ∧
        r0.brake_failure_risk < r1.brake_failure_risk ∧
        r0.brake_temperature_c ≤ r1.brake_temperature_c :=
  C1_steep_downhill_scenario bus_vehicle rfl rfl normal_environment
    base_behavior

/-- Counterexample to C1 as stated: with the Bus's brake-heat factor at 1,
the heating increment on the steep downhill segment (at most ≈0.69 °C) is
smaller than the fixed 2 °C ambient cooling, so the temperature stays at
the 20 °C floor and is not strictly greater than the prior flat segment's
20 °C. -/
theorem C1_no_strict_temperature_rise :
    ∃ r0 r1 rest,
      simulate_vehicle_journey scenario_route bus_vehicle normal_environment
          40 base_behavior = r0 :: r1 :: rest ∧
        ¬ (r0.brake_temperature_c < r1.brake_temperature_c) := by
  have hflat := flat_segment_step bus_vehicle normal_environment 40
    base_behavior none 0
  have hpd : segment_distance_of (some (flat_segment 0).distanceKm)
      downhill_segment.distanceKm = 0.11 := by
    show segment_distance_of (some (0.11 * ((0 : ℕ) + 1 : ℚ))) 0.22 = 0.11
    unfold segment_distance_of
    rw [if_neg (by norm_num)]
    norm_num
  have hdt := downhill_temp_at_unit_heat (some (flat_segment 0).distanceKm) hpd
  refine ⟨_, _, _, rfl, ?_⟩
  rw [hflat.2.2, hflat.1, hdt]
  exact lt_irrefl 20

end MountainRoad
